import Mathlib

/-!
Shallow embedding of `create_token.py` from podaac/generate-token-creator:
an AWS Lambda that creates an EDL bearer token, stores it in SSM Parameter
Store, and publishes an SNS failure notification on error.

HTTP calls, SSM, KMS and SNS are modelled as an explicit environment record
holding the (already JSON-parsed) responses the external services return;
each function additionally returns the trace of outbound requests it makes.
Python exceptions are modelled explicitly: `botocore` client errors as a
`CallResult.clientError` value (the only exception type the code catches),
uncaught faults (`KeyError`, `UnboundLocalError`) as `crash` outcomes.
-/

/-- Suffix-free character-list matching: does the first list occur at the
head of the second? (Models Python `str.startswith` on the reversed lists,
used below for `str.endswith` and substring containment.) -/
def listStarts : List Char → List Char → Bool
  | [], _ => true
  | _ :: _, [] => false
  | a :: as, b :: bs => a == b && listStarts as bs

/-- Models Python `s.endswith(pat)`. -/
def strEndsWith (s pat : String) : Bool :=
  listStarts pat.toList.reverse s.toList.reverse

/-- Does `needle` occur as a contiguous sublist of `hay`? -/
def containsSub (needle : List Char) : List Char → Bool
  | [] => needle.isEmpty
  | c :: t => listStarts needle (c :: t) || containsSub needle t

/-- Models Python `needle in hay` on strings (substring containment). -/
def strContainsSub (hay needle : String) : Bool :=
  containsSub needle.toList hay.toList

/-- A parsed JSON object with string values, as returned by `json.loads`
on the identity-provider responses. Keys are unique in a Python dict;
lookup takes the first binding. -/
structure JsonObj where
  fields : List (String × String)
deriving DecidableEq

/-- Models `d[k]` returning an optional value (`none` = would raise KeyError). -/
def JsonObj.get (o : JsonObj) (k : String) : Option String :=
  o.fields.lookup k

/-- Models Python `k in d.keys()`. -/
def JsonObj.hasKey (o : JsonObj) (k : String) : Bool :=
  (o.get k).isSome

/-- Constant `TOPIC_STRING` from the source. -/
def TOPIC_STRING : String := "batch-job-failure"

/-- An outbound HTTP request made by the token issuer. -/
inductive Req where
  /-- `requests.post(token_url, ...)` -/
  | postToken (url : String)
  /-- `requests.get(f"{token_url}s", ...)` (braces here quote the source f-string) -/
  | getTokens (url : String)
  /-- `requests.post(f"{delete_token_url}={access_token}", ...)` -/
  | postRevoke (url : String)
deriving DecidableEq

/-- The URL a request is sent to. -/
def Req.url : Req → String
  | postToken u => u
  | getTokens u => u
  | postRevoke u => u

/-- Result of `generate_token` / `handle_token_error`:
a token string, the Python literal `False`, or an uncaught `KeyError`. -/
inductive GenResult where
  | token (t : String)
  | failure
  | keyError (k : String)
deriving DecidableEq

/-- Python truthiness of the value returned by `generate_token`, as tested
by `if not token:` in `token_handler` (an empty string is falsy). -/
def truthy : GenResult → Bool
  | GenResult.token t => !(t == "")
  | GenResult.failure => false
  | GenResult.keyError _ => false

/-- The identity-provider side of the environment: parsed responses to the
first token POST, the token-listing GET, each revoke POST (by URL), and the
retried token POST. -/
structure Env where
  firstPost : JsonObj
  listResp : List JsonObj
  revokeResp : String → String
  retryPost : JsonObj

/-- `token_url` as selected from the event prefix in `token_handler`
(lines 30-37): a prefix ending in `-sit` or `-uat` selects the UAT host,
anything else the OPS host. -/
def token_url (pfx : String) : String :=
  if strEndsWith pfx "-sit" || strEndsWith pfx "-uat" then
    "https://uat.urs.earthdata.nasa.gov/api/users/token"
  else
    "https://urs.earthdata.nasa.gov/api/users/token"

/-- `delete_token_url` as selected from the event prefix in `token_handler`. -/
def delete_token_url (pfx : String) : String :=
  if strEndsWith pfx "-sit" || strEndsWith pfx "-uat" then
    "https://uat.urs.earthdata.nasa.gov/api/users/revoke_token?token"
  else
    "https://urs.earthdata.nasa.gov/api/users/revoke_token?token"

/-- The revoke requests issued by the loop in `handle_token_error`:
one POST per listed token object that has an `access_token` key, at
`delete_token_url` followed by `=` and that token's value. -/
def revoke_requests (tokens : List JsonObj) (durl : String) : List Req :=
  tokens.filterMap fun t =>
    (t.get "access_token").map fun v => Req.postRevoke (durl ++ "=" ++ v)

/-- `handle_token_error` (lines 108-126): list all tokens, revoke each one
that has an `access_token` field (the revoke responses are discarded by the
source), then retry the token POST exactly once; an `error` key in the
retry response yields `False`, otherwise the `access_token` field is
returned (raising KeyError when absent). The second component is the
request trace. -/
def handle_token_error (env : Env) (turl durl : String) : GenResult × List Req :=
  let revokes := revoke_requests env.listResp durl
  let _discarded := revokes.map fun r => env.revokeResp r.url
  let td := env.retryPost
  let result :=
    if td.hasKey "error" then GenResult.failure
    else
      match td.get "access_token" with
      | some v => GenResult.token v
      | none => GenResult.keyError "access_token"
  (result, Req.getTokens (turl ++ "s") :: revokes ++ [Req.postToken turl])

/-- `generate_token` (lines 92-106): POST to the token endpoint; on
`error = max_token_limit` delegate to `handle_token_error`, on any other
error return `False`, otherwise return the `access_token` field (raising
KeyError when absent). The second component is the request trace. -/
def generate_token (env : Env) (turl durl : String) : GenResult × List Req :=
  let td := env.firstPost
  if td.hasKey "error" then
    if td.get "error" = some "max_token_limit" then
      let r := handle_token_error env turl durl
      (r.1, Req.postToken turl :: r.2)
    else
      (GenResult.failure, [Req.postToken turl])
  else
    match td.get "access_token" with
    | some v => (GenResult.token v, [Req.postToken turl])
    | none => (GenResult.keyError "access_token", [Req.postToken turl])

/-- The SSM `put_parameter` request built by `store_token` (lines 138-146). -/
structure PutParameterRequest where
  name : String
  description : String
  value : String
  paramType : String
  keyId : String
  overwrite : Bool
  tier : String
deriving DecidableEq

/-- The exact `put_parameter` request `store_token` issues for a token,
prefix and KMS key (the key obtained from `describe_key` on `alias/aws/ssm`). -/
def store_token_request (token pfx key : String) : PutParameterRequest :=
  { name := pfx ++ "-edl-token"
    description := "Temporary EDL bearer token"
    value := token
    paramType := "SecureString"
    keyId := key
    overwrite := true
    tier := "Standard" }

/-- Effect of an overwriting `put_parameter` call on the parameter table. -/
def put_parameter (table : String → Option String) (req : PutParameterRequest) :
    String → Option String :=
  fun n => if n = req.name then some req.value else table n

/-- Outcome of a call to an AWS SDK operation: a value, or a
`botocore.exceptions.ClientError` carrying a message. -/
inductive CallResult (α : Type) where
  | ok (value : α)
  | clientError (msg : String)
deriving DecidableEq

/-- The failure event handed to `publish_event`:
`(sigevent_type, sigevent_description, sigevent_data)`. -/
structure FailureEvent where
  sigeventType : String
  sigeventDescription : String
  sigeventData : String
deriving DecidableEq

/-- SNS side of the environment: the result of `list_topics` (a list of
topic ARNs), the result of `publish`, and the two Lambda log environment
variables interpolated into the message. -/
structure SnsEnv where
  listTopics : CallResult (List String)
  publishResult : CallResult Unit
  logGroup : String
  logStream : String

/-- Outcome of `publish_event`: `sys.exit(1)` from one of its two error
handlers, an uncaught fault, or a normal return carrying the ARN and
message that were published. -/
inductive NotifyOutcome where
  | exit1
  | crash (msg : String)
  | returned (arn message : String)
deriving DecidableEq

/-- The message body composed by `publish_event` (lines 171-175). -/
def compose_message (sns : SnsEnv) (ev : FailureEvent) : String :=
  let base :=
    "The Generate Token Creator has encountered an error.\n" ++
    "Log file: " ++ sns.logGroup ++ "/" ++ sns.logStream ++ ".\n" ++
    "Error type: " ++ ev.sigeventType ++ ".\n" ++
    "Error description: " ++ ev.sigeventDescription ++ "\n"
  if ev.sigeventData ≠ "" then base ++ "Error data: " ++ ev.sigeventData else base

/-- The topic ARN bound by the lookup loop in `publish_event` (lines
165-167): the last listed ARN containing `TOPIC_STRING`, or `none` when no
ARN matches, in which case the local `topic_arn` is never assigned. -/
def lastMatch (arns : List String) : Option String :=
  (arns.filter fun a => strContainsSub a TOPIC_STRING).getLast?

/-- `publish_event` (lines 153-187): list topics (ClientError exits 1),
scan for the marker substring, publish (ClientError exits 1). When no
listed ARN contains the marker, the reference to the unassigned local
`topic_arn` raises an uncaught `UnboundLocalError`. -/
def publish_event (sns : SnsEnv) (ev : FailureEvent) : NotifyOutcome :=
  match sns.listTopics with
  | CallResult.clientError _ => NotifyOutcome.exit1
  | CallResult.ok arns =>
    match lastMatch arns with
    | none => NotifyOutcome.crash "UnboundLocalError: topic_arn"
    | some arn =>
      match sns.publishResult with
      | CallResult.clientError _ => NotifyOutcome.exit1
      | CallResult.ok _ => NotifyOutcome.returned arn (compose_message sns ev)

/-- Overall outcome of one Lambda invocation: normal return, `sys.exit`
with a code, or an uncaught exception. -/
inductive Outcome where
  | success
  | exit (code : Nat)
  | crash (msg : String)
deriving DecidableEq

/-- Outcome of the invocation after `publish_event` is called at a
`token_handler` call site: both call sites are followed by `sys.exit(1)`,
so a normal return from `publish_event` still exits 1; an exit or crash
inside `publish_event` propagates. -/
def notifyToOutcome : NotifyOutcome → Outcome
  | NotifyOutcome.exit1 => Outcome.exit 1
  | NotifyOutcome.crash m => Outcome.crash m
  | NotifyOutcome.returned _ _ => Outcome.exit 1

/-- Whole environment of one invocation: the credential lookup
(`get_edl_creds`), the identity-provider responses, the `store_token`
write outcome, and the SNS environment. -/
structure LambdaEnv where
  creds : CallResult (String × String)
  http : Env
  store : CallResult Unit
  sns : SnsEnv

/-- `token_handler` (lines 25-48): select URLs from the prefix, get
credentials, generate the token, store it, and on a falsy token or a
caught ClientError publish a failure event and `sys.exit(1)`. Returns the
invocation outcome together with the failure event handed to
`publish_event`, when one was. A `KeyError` escaping `generate_token` is
not a ClientError and is not caught. `store_token` is invoked before the
`if not token:` test, exactly as in the source. -/
def token_handler (lenv : LambdaEnv) (pfx : String) : Outcome × Option FailureEvent :=
  match lenv.creds with
  | CallResult.clientError msg =>
    let ev : FailureEvent := ⟨"ERROR", msg, ""⟩
    (notifyToOutcome (publish_event lenv.sns ev), some ev)
  | CallResult.ok _ =>
    let g := generate_token lenv.http (token_url pfx) (delete_token_url pfx)
    match g.1 with
    | GenResult.keyError k => (Outcome.crash ("KeyError: " ++ k), none)
    | gen =>
      match lenv.store with
      | CallResult.clientError msg =>
        let ev : FailureEvent := ⟨"ERROR", msg, ""⟩
        (notifyToOutcome (publish_event lenv.sns ev), some ev)
      | CallResult.ok _ =>
        if truthy gen then (Outcome.success, none)
        else
          let ev : FailureEvent := ⟨"ERROR", "Issue generating and storing bearer token.", ""⟩
          (notifyToOutcome (publish_event lenv.sns ev), some ev)

/-- The token issuance result is an explicit Python-falsy value: the
literal `False` or an empty token string. -/
def issuance_failed (g : GenResult) : Prop :=
  g = GenResult.failure ∨ g = GenResult.token ""

/-- The topic lookup in `publish_event` resolves `topic_arn` or exits
before reaching it: either `list_topics` raises a ClientError, or some
listed ARN contains the marker substring. -/
def sns_lookup_resolves (sns : SnsEnv) : Bool :=
  match sns.listTopics with
  | CallResult.clientError _ => true
  | CallResult.ok arns => arns.any fun a => strContainsSub a TOPIC_STRING

/-- Is a request a POST to the token endpoint? -/
def isTokenPost : Req → Bool
  | Req.postToken _ => true
  | _ => false

/-- Is a request a revoke POST? -/
def isRevokePost : Req → Bool
  | Req.postRevoke _ => true
  | _ => false

/-! Concrete sample responses and environments used to instantiate the
theorems below on closed inputs. -/

/-- A first-attempt response carrying a non-max-limit error code. -/
def respGenericError : JsonObj := ⟨[("error", "invalid_credentials")]⟩

/-- The max-token-limit error response. -/
def respMaxLimit : JsonObj := ⟨[("error", "max_token_limit")]⟩

/-- A response carrying an access token. -/
def respToken (v : String) : JsonObj := ⟨[("access_token", v)]⟩

/-- A response with neither an error nor an access-token key. -/
def respEmpty : JsonObj := ⟨[]⟩

/-- Provider environment whose first POST succeeds at once. -/
def httpSuccess : Env :=
  { firstPost := respToken "abc123", listResp := [], revokeResp := fun _ => "",
    retryPost := respEmpty }

/-- Provider environment whose first POST fails with a generic error. -/
def httpGenericError : Env :=
  { firstPost := respGenericError, listResp := [], revokeResp := fun _ => "",
    retryPost := respEmpty }

/-- Provider environment: max-limit error, two listed tokens, retry succeeds. -/
def httpMaxLimit : Env :=
  { firstPost := respMaxLimit, listResp := [respToken "tok1", respToken "tok2"],
    revokeResp := fun _ => "", retryPost := respToken "fresh" }

/-- Provider environment: max-limit error and the retry itself errors. -/
def httpMaxRetryErr : Env :=
  { firstPost := respMaxLimit, listResp := [respToken "tok1"],
    revokeResp := fun _ => "", retryPost := respMaxLimit }

/-- Provider environment whose first POST has neither error nor access_token. -/
def httpNoKeys : Env :=
  { firstPost := respEmpty, listResp := [], revokeResp := fun _ => "",
    retryPost := respEmpty }

/-- Max-limit environment whose revoke calls all answer 200. -/
def httpRevA : Env :=
  { firstPost := respMaxLimit, listResp := [respToken "tok1"],
    revokeResp := fun _ => "200", retryPost := respToken "fresh" }

/-- Same environment except every revoke call answers 500. -/
def httpRevB : Env := { httpRevA with revokeResp := fun _ => "500" }

/-- SNS environment listing only topics without the marker substring. -/
def snsNoMatch : SnsEnv :=
  { listTopics := CallResult.ok ["arn:aws:sns:us-west-2:000000000000:some-other-topic"],
    publishResult := CallResult.ok (), logGroup := "lg", logStream := "ls" }

/-- SNS environment listing a topic whose ARN contains the marker substring. -/
def snsMatch : SnsEnv :=
  { listTopics := CallResult.ok ["arn:aws:sns:us-west-2:000000000000:svc-batch-job-failure"],
    publishResult := CallResult.ok (), logGroup := "lg", logStream := "ls" }

/-- SNS environment whose list_topics call raises a ClientError. -/
def snsLookupErr : SnsEnv :=
  { listTopics := CallResult.clientError "AccessDenied", publishResult := CallResult.ok (),
    logGroup := "lg", logStream := "ls" }

/-- Invocation environment: issuance fails, storage succeeds, no SNS topic matches. -/
def lenvNoMatch : LambdaEnv :=
  { creds := CallResult.ok ("user", "pass"), http := httpGenericError,
    store := CallResult.ok (), sns := snsNoMatch }

/-- Invocation environment: issuance fails, storage succeeds, an SNS topic matches. -/
def lenvMatch : LambdaEnv :=
  { creds := CallResult.ok ("user", "pass"), http := httpGenericError,
    store := CallResult.ok (), sns := snsMatch }

/-- Invocation environment whose first token response has neither expected key. -/
def lenvNoKeys : LambdaEnv :=
  { creds := CallResult.ok ("user", "pass"), http := httpNoKeys,
    store := CallResult.ok (), sns := snsMatch }

/-- A sample failure event. -/
def evSample : FailureEvent := ⟨"ERROR", "Issue generating and storing bearer token.", ""⟩

/-! Helper lemmas shared by the claim theorems. -/

/-- A revoke-request list built from fully-populated token objects is a plain map. -/
theorem revoke_requests_eq_map (tokens : List JsonObj) (durl : String)
    (h : ∀ t ∈ tokens, (t.get "access_token").isSome = true) :
    revoke_requests tokens durl =
      tokens.map fun t => Req.postRevoke (durl ++ "=" ++ (t.get "access_token").getD "") := by
  induction tokens with
  | nil => rfl
  | cons a l ih =>
    have ha := h a (List.mem_cons_self a l)
    obtain ⟨v, hv⟩ := Option.isSome_iff_exists.mp ha
    have ihl := ih fun t ht => h t (List.mem_cons_of_mem a ht)
    simp only [revoke_requests, List.filterMap_cons, List.map_cons] at *
    simp [hv, ihl]

/-- Every request produced by the revoke loop is a revoke POST. -/
theorem revoke_requests_are_revokes (tokens : List JsonObj) (durl : String) :
    ∀ r ∈ revoke_requests tokens durl, isRevokePost r = true := by
  intro r hr
  simp only [revoke_requests, List.mem_filterMap] at hr
  obtain ⟨t, _, hmap⟩ := hr
  obtain ⟨v, _, rfl⟩ := Option.map_eq_some'.mp hmap
  rfl

/-- The revoke loop performs no POST to the token endpoint. -/
theorem countP_tokenPost_revoke_requests (tokens : List JsonObj) (durl : String) :
    (revoke_requests tokens durl).countP isTokenPost = 0 := by
  rw [List.countP_eq_zero]
  intro r hr
  have := revoke_requests_are_revokes tokens durl r hr
  cases r <;> simp_all [isRevokePost, isTokenPost]

/-- When some listed ARN contains the marker, the lookup loop leaves
`topic_arn` bound (to the last match). -/
theorem lastMatch_isSome_of_any (arns : List String)
    (h : (arns.any fun a => strContainsSub a TOPIC_STRING) = true) :
    ∃ a, lastMatch arns = some a := by
  obtain ⟨x, hx, hpx⟩ := List.any_eq_true.mp h
  have hne : (arns.filter fun a => strContainsSub a TOPIC_STRING) ≠ [] := by
    intro hnil
    exact absurd hpx (List.filter_eq_nil_iff.mp hnil x hx)
  have := List.getLast?_isSome.mpr hne
  obtain ⟨a, ha⟩ := Option.isSome_iff_exists.mp this
  exact ⟨a, ha⟩

/-- When no listed ARN contains the marker, `topic_arn` is never assigned. -/
theorem lastMatch_eq_none_of_not_any (arns : List String)
    (h : (arns.any fun a => strContainsSub a TOPIC_STRING) = false) :
    lastMatch arns = none := by
  unfold lastMatch
  rw [List.getLast?_eq_none_iff, List.filter_eq_nil_iff]
  intro a ha hpa
  exact absurd hpa (List.any_eq_false.mp h a ha)

/-- `publish_event` never returns to a normal-success outcome at its call
sites: every path exits 1 or crashes. -/
theorem notify_not_success (sns : SnsEnv) (ev : FailureEvent) :
    notifyToOutcome (publish_event sns ev) ≠ Outcome.success := by
  rcases hl : sns.listTopics with arns | m
  · rcases hm : lastMatch arns with _ | a
    · simp [publish_event, hl, hm, notifyToOutcome]
    · rcases hp : sns.publishResult with u | m2 <;>
        simp [publish_event, hl, hm, hp, notifyToOutcome]
  · simp [publish_event, hl, notifyToOutcome]

/-- When the topic lookup resolves (ClientError or some matching ARN), a
call to `publish_event` followed by `sys.exit(1)` yields exit code 1. -/
theorem notify_exit1_of_resolves (sns : SnsEnv) (ev : FailureEvent)
    (h : sns_lookup_resolves sns = true) :
    notifyToOutcome (publish_event sns ev) = Outcome.exit 1 := by
  rcases hl : sns.listTopics with arns | m
  · have h2 : (arns.any fun a => strContainsSub a TOPIC_STRING) = true := by
      simpa [sns_lookup_resolves, hl] using h
    obtain ⟨a, ha⟩ := lastMatch_isSome_of_any arns h2
    rcases hp : sns.publishResult with u | m2 <;>
      simp [publish_event, hl, ha, hp, notifyToOutcome]
  · simp [publish_event, hl, notifyToOutcome]

/-- When the topic lookup succeeds but no ARN matches, `publish_event`
crashes with the unbound-local fault. -/
theorem notify_crash_of_not_resolves (sns : SnsEnv) (ev : FailureEvent)
    (h : sns_lookup_resolves sns = false) :
    notifyToOutcome (publish_event sns ev) = Outcome.crash "UnboundLocalError: topic_arn" := by
  rcases hl : sns.listTopics with arns | m
  · have h2 : (arns.any fun a => strContainsSub a TOPIC_STRING) = false := by
      simpa [sns_lookup_resolves, hl] using h
    simp [publish_event, hl, lastMatch_eq_none_of_not_any arns h2, notifyToOutcome]
  · simp [sns_lookup_resolves, hl] at h

/-! Claim theorems. -/

/-- Claim C5: a prefix ending in `-sit` or `-uat` routes the token and
revoke endpoints to the non-production (UAT) base URL, and any other
prefix (for example `foo-ops` or `foo`) routes them to the production
base URL. -/
theorem token_url_routing (pfx : String) :
    (if strEndsWith pfx "-sit" || strEndsWith pfx "-uat" then
      token_url pfx = "https://uat.urs.earthdata.nasa.gov/api/users/token" ∧
      delete_token_url pfx = "https://uat.urs.earthdata.nasa.gov/api/users/revoke_token?token"
    else
      token_url pfx = "https://urs.earthdata.nasa.gov/api/users/token" ∧
      delete_token_url pfx = "https://urs.earthdata.nasa.gov/api/users/revoke_token?token") ∧
    token_url "foo-sit" = "https://uat.urs.earthdata.nasa.gov/api/users/token" ∧
    token_url "foo-uat" = "https://uat.urs.earthdata.nasa.gov/api/users/token" ∧
    token_url "foo-ops" = "https://urs.earthdata.nasa.gov/api/users/token" ∧
    token_url "foo" = "https://urs.earthdata.nasa.gov/api/users/token" := by
  refine ⟨?_, by decide, by decide, by decide, by decide⟩
  by_cases h : (strEndsWith pfx "-sit" || strEndsWith pfx "-uat") = true
  · simp [token_url, delete_token_url, h]
  · simp [token_url, delete_token_url, h]

/-- Claim C6: when the first token POST returns a response with no error
key and a valid access token, `generate_token` returns exactly that token
and the request trace is the single original POST: zero revoke requests
and zero additional POSTs. -/
theorem generate_token_success (env : Env) (turl durl v : String)
    (h1 : env.firstPost.get "error" = none)
    (h2 : env.firstPost.get "access_token" = some v) :
    generate_token env turl durl = (GenResult.token v, [Req.postToken turl]) := by
  simp [generate_token, JsonObj.hasKey, h1, h2]

/-- Claim C6 witness: a concrete environment whose first POST carries
`access_token = abc123`. -/
theorem generate_token_success_witness :
    generate_token httpSuccess "T" "D" = (GenResult.token "abc123", [Req.postToken "T"]) :=
  generate_token_success httpSuccess "T" "D" "abc123" rfl rfl

/-- Claim C7: when the first token POST returns an error code other than
`max_token_limit`, `generate_token` fails immediately with a single-request
trace: zero revoke requests and zero retried POSTs. -/
theorem generate_token_generic_error (env : Env) (turl durl e : String)
    (h1 : env.firstPost.get "error" = some e) (h2 : e ≠ "max_token_limit") :
    generate_token env turl durl = (GenResult.failure, [Req.postToken turl]) := by
  simp [generate_token, JsonObj.hasKey, h1, h2]

/-- Claim C7 witness: a concrete environment whose first POST fails with
`invalid_credentials`. -/
theorem generate_token_generic_error_witness :
    generate_token httpGenericError "T" "D" = (GenResult.failure, [Req.postToken "T"]) :=
  generate_token_generic_error httpGenericError "T" "D" "invalid_credentials" rfl (by decide)

/-- Claim C8: the secret-store write uses exactly the key formed from the
prefix and `-edl-token`, with overwrite enabled and the encrypted
SecureString type, and for every prior parameter table the written value
is found at that key afterwards. -/
theorem store_token_request_spec (token pfx key : String) :
    (store_token_request token pfx key).name = pfx ++ "-edl-token" ∧
    (store_token_request token pfx key).overwrite = true ∧
    (store_token_request token pfx key).paramType = "SecureString" ∧
    ∀ table : String → Option String,
      put_parameter table (store_token_request token pfx key) (pfx ++ "-edl-token") =
        some token := by
  refine ⟨rfl, rfl, rfl, fun table => ?_⟩
  simp [put_parameter, store_token_request]

/-- Claim C2: on a `max_token_limit` first response with N listed tokens
each carrying an access-token field, the trace is the original POST, the
listing GET, one revoke POST per listed token (at that token's value),
then exactly one retried POST; in particular it holds exactly N revoke
requests and exactly two token-endpoint POSTs (the original and one
retry). -/
theorem generate_token_max_limit_trace (env : Env) (turl durl : String)
    (h1 : env.firstPost.get "error" = some "max_token_limit")
    (h2 : ∀ t ∈ env.listResp, (t.get "access_token").isSome = true) :
    (generate_token env turl durl).2 =
      Req.postToken turl :: Req.getTokens (turl ++ "s") ::
        (env.listResp.map fun t =>
          Req.postRevoke (durl ++ "=" ++ (t.get "access_token").getD "")) ++
        [Req.postToken turl] ∧
    (generate_token env turl durl).2.countP isRevokePost = env.listResp.length ∧
    (generate_token env turl durl).2.countP isTokenPost = 2 := by
  have hr := revoke_requests_eq_map env.listResp durl h2
  have htrace : (generate_token env turl durl).2 =
      Req.postToken turl :: Req.getTokens (turl ++ "s") ::
        (env.listResp.map fun t =>
          Req.postRevoke (durl ++ "=" ++ (t.get "access_token").getD "")) ++
        [Req.postToken turl] := by
    simp [generate_token, handle_token_error, JsonObj.hasKey, h1, hr]
  refine ⟨htrace, ?_, ?_⟩ <;>
    simp [htrace, List.countP_cons, List.countP_map, isRevokePost, isTokenPost,
      Function.comp]

/-- Claim C2 witness: two listed tokens produce two revoke requests and
one retried POST. -/
theorem generate_token_max_limit_trace_witness :
    (generate_token httpMaxLimit "T" "D").2 =
      Req.postToken "T" :: Req.getTokens ("T" ++ "s") ::
        (httpMaxLimit.listResp.map fun t =>
          Req.postRevoke ("D" ++ "=" ++ (t.get "access_token").getD "")) ++
        [Req.postToken "T"] ∧
    (generate_token httpMaxLimit "T" "D").2.countP isRevokePost =
      httpMaxLimit.listResp.length ∧
    (generate_token httpMaxLimit "T" "D").2.countP isTokenPost = 2 :=
  generate_token_max_limit_trace httpMaxLimit "T" "D" rfl (by decide)

/-- Claim C4: every execution of `generate_token` performs at most two
POSTs to the token endpoint (the original and at most one retry); and when
the retry after max-token-limit handling itself errors, the result is the
failure indicator and the trace ends at the retried POST, with the revoke
requests already issued still present (not undone). -/
theorem generate_token_single_retry (env : Env) (turl durl : String) :
    (generate_token env turl durl).2.countP isTokenPost ≤ 2 ∧
    (env.firstPost.get "error" = some "max_token_limit" →
      env.retryPost.hasKey "error" = true →
      (generate_token env turl durl).1 = GenResult.failure ∧
      (generate_token env turl durl).2 =
        Req.postToken turl :: Req.getTokens (turl ++ "s") ::
          revoke_requests env.listResp durl ++ [Req.postToken turl]) := by
  constructor
  · rcases he : env.firstPost.get "error" with _ | e
    · rcases ha : env.firstPost.get "access_token" with _ | v <;>
        simp [generate_token, JsonObj.hasKey, he, ha, List.countP_cons, isTokenPost]
    · by_cases hm : e = "max_token_limit"
      · subst hm
        simp [generate_token, handle_token_error, JsonObj.hasKey, he,
          List.countP_cons, countP_tokenPost_revoke_requests, isTokenPost]
      · simp [generate_token, JsonObj.hasKey, he, hm, List.countP_cons, isTokenPost]
  · intro hmax herr
    obtain ⟨e, he⟩ := Option.isSome_iff_exists.mp herr
    constructor <;> simp [generate_token, handle_token_error, JsonObj.hasKey, hmax, he]

/-- Claim C4 witness: max-limit first response, one listed token, erroring
retry: the result is failure and the trace ends at the single retry. -/
theorem generate_token_single_retry_witness :
    (generate_token httpMaxRetryErr "T" "D").1 = GenResult.failure ∧
    (generate_token httpMaxRetryErr "T" "D").2 =
      Req.postToken "T" :: Req.getTokens ("T" ++ "s") ::
        revoke_requests httpMaxRetryErr.listResp "D" ++ [Req.postToken "T"] :=
  (generate_token_single_retry httpMaxRetryErr "T" "D").2 rfl rfl

/-- Claim C9: the outcome of `handle_token_error` does not depend on the
responses to the revoke requests: two environments agreeing on everything
except the revoke responses produce the same result and the same request
trace, and the retried POST is still issued. -/
theorem handle_token_error_ignores_revoke_responses (e1 e2 : Env) (turl durl : String)
    (_h1 : e1.firstPost = e2.firstPost) (h2 : e1.listResp = e2.listResp)
    (h3 : e1.retryPost = e2.retryPost) :
    handle_token_error e1 turl durl = handle_token_error e2 turl durl ∧
    Req.postToken turl ∈ (handle_token_error e1 turl durl).2 := by
  constructor
  · simp [handle_token_error, h2, h3]
  · simp [handle_token_error]

/-- Claim C9 witness: two concrete environments differing only in the
revoke responses (all-200 versus all-500) yield identical results. -/
theorem handle_token_error_ignores_revoke_responses_witness :
    handle_token_error httpRevA "T" "D" = handle_token_error httpRevB "T" "D" ∧
    Req.postToken "T" ∈ (handle_token_error httpRevA "T" "D").2 :=
  handle_token_error_ignores_revoke_responses httpRevA httpRevB "T" "D" rfl rfl rfl

/-- Claim C10: when the first response has neither an error key nor an
access_token key, `generate_token` yields an uncaught KeyError; the
invocation crashes without handing any failure event to the Notifier. -/
theorem generate_token_missing_keys_crash (lenv : LambdaEnv) (pfx : String)
    (hc : ∃ u pw, lenv.creds = CallResult.ok (u, pw))
    (h1 : lenv.http.firstPost.get "error" = none)
    (h2 : lenv.http.firstPost.get "access_token" = none) :
    (generate_token lenv.http (token_url pfx) (delete_token_url pfx)).1 =
      GenResult.keyError "access_token" ∧
    (token_handler lenv pfx).1 = Outcome.crash "KeyError: access_token" ∧
    (token_handler lenv pfx).2 = none := by
  obtain ⟨u, pw, hcr⟩ := hc
  have hg : generate_token lenv.http (token_url pfx) (delete_token_url pfx) =
      (GenResult.keyError "access_token", [Req.postToken (token_url pfx)]) := by
    simp [generate_token, JsonObj.hasKey, h1, h2]
  refine ⟨by rw [hg], ?_, ?_⟩ <;> simp [token_handler, hcr, hg]

/-- Claim C10 witness: a concrete environment whose first response is the
empty JSON object. -/
theorem generate_token_missing_keys_crash_witness :
    (generate_token lenvNoKeys.http (token_url "podaac") (delete_token_url "podaac")).1 =
      GenResult.keyError "access_token" ∧
    (token_handler lenvNoKeys "podaac").1 = Outcome.crash "KeyError: access_token" ∧
    (token_handler lenvNoKeys "podaac").2 = none :=
  generate_token_missing_keys_crash lenvNoKeys "podaac" ⟨"user", "pass", rfl⟩ rfl rfl

/-- On an issuance failure (with credentials retrieved), `token_handler`
always builds an `"ERROR"` failure event and finishes by the
`publish_event`-then-`sys.exit(1)` sequence, whichever way `store_token`
turned out. -/
theorem token_handler_eq_notify (lenv : LambdaEnv) (pfx u pw : String)
    (hcr : lenv.creds = CallResult.ok (u, pw))
    (hf : issuance_failed (generate_token lenv.http (token_url pfx) (delete_token_url pfx)).1) :
    ∃ ev : FailureEvent, ev.sigeventType = "ERROR" ∧
      token_handler lenv pfx = (notifyToOutcome (publish_event lenv.sns ev), some ev) := by
  rcases hs : lenv.store with u2 | msg
  · rcases hf with hf | hf
    · exact ⟨⟨"ERROR", "Issue generating and storing bearer token.", ""⟩, rfl,
        by simp [token_handler, hcr, hf, hs, truthy]⟩
    · exact ⟨⟨"ERROR", "Issue generating and storing bearer token.", ""⟩, rfl,
        by simp [token_handler, hcr, hf, hs, truthy]⟩
  · rcases hf with hf | hf
    · exact ⟨⟨"ERROR", msg, ""⟩, rfl, by simp [token_handler, hcr, hf, hs]⟩
    · exact ⟨⟨"ERROR", msg, ""⟩, rfl, by simp [token_handler, hcr, hf, hs]⟩

/-- Claim C1 counterexample: with credentials retrieved, issuance failing,
storage succeeding and no listed SNS topic containing the marker, the
failure event is handed to the Notifier and yet the invocation does not
terminate with exit status 1 — it crashes on the unbound `topic_arn`. -/
theorem token_handler_failure_not_exit1 :
    issuance_failed (generate_token lenvNoMatch.http (token_url "podaac")
      (delete_token_url "podaac")).1 ∧
    (token_handler lenvNoMatch "podaac").2.isSome = true ∧
    (token_handler lenvNoMatch "podaac").1 ≠ Outcome.exit 1 ∧
    (token_handler lenvNoMatch "podaac").1 = Outcome.crash "UnboundLocalError: topic_arn" := by
  refine ⟨Or.inl rfl, rfl, ?_, rfl⟩
  decide

/-- Claim C1 (amended): for every invocation in which token issuance
returns a false/empty result, the orchestrator constructs an ERROR
failure event and hands it to the Notifier, and the invocation never
terminates successfully; it terminates with exit 1 provided the topic
lookup fails with a client error or some listed topic contains the marker
substring, and otherwise crashes on the Notifier's unbound local. -/
theorem token_handler_issuance_failure (lenv : LambdaEnv) (pfx : String)
    (hc : ∃ u pw, lenv.creds = CallResult.ok (u, pw))
    (hf : issuance_failed (generate_token lenv.http (token_url pfx) (delete_token_url pfx)).1) :
    (∃ ev, (token_handler lenv pfx).2 = some ev ∧ ev.sigeventType = "ERROR") ∧
    (token_handler lenv pfx).1 ≠ Outcome.success ∧
    (sns_lookup_resolves lenv.sns = true → (token_handler lenv pfx).1 = Outcome.exit 1) ∧
    (sns_lookup_resolves lenv.sns = false →
      (token_handler lenv pfx).1 = Outcome.crash "UnboundLocalError: topic_arn") := by
  obtain ⟨u, pw, hcr⟩ := hc
  obtain ⟨ev, het, hev⟩ := token_handler_eq_notify lenv pfx u pw hcr hf
  refine ⟨⟨ev, by rw [hev], het⟩, ?_, ?_, ?_⟩
  · rw [hev]; exact notify_not_success lenv.sns ev
  · intro h; rw [hev]; exact notify_exit1_of_resolves lenv.sns ev h
  · intro h; rw [hev]; exact notify_crash_of_not_resolves lenv.sns ev h

/-- Claim C1 witness: with a matching SNS topic present, the failing
invocation notifies and exits 1. -/
theorem token_handler_issuance_failure_witness :
    (∃ ev, (token_handler lenvMatch "podaac").2 = some ev ∧ ev.sigeventType = "ERROR") ∧
    (token_handler lenvMatch "podaac").1 ≠ Outcome.success ∧
    (token_handler lenvMatch "podaac").1 = Outcome.exit 1 :=
  have h := token_handler_issuance_failure lenvMatch "podaac" ⟨"user", "pass", rfl⟩ (Or.inl rfl)
  ⟨h.1, h.2.1, h.2.2.1 (by decide)⟩

/-- Claim C3 counterexample: a topic listing that succeeds but contains no
ARN with the marker substring makes the Notifier crash with an unhandled
fault (the unassigned local `topic_arn`), contradicting the claim that it
never crashes for any possible result of the topic lookup. -/
theorem publish_event_crashes_without_match :
    publish_event snsNoMatch evSample = NotifyOutcome.crash "UnboundLocalError: topic_arn" :=
  rfl

/-- Claim C3 (amended): provided the topic lookup fails with a client
error or at least one listed topic ARN contains the marker substring, the
Notifier never crashes with an unhandled fault, and a failing topic lookup
or a failing publish call still makes the process terminate with a
non-zero status; when the lookup succeeds with no matching ARN, it
crashes instead. -/
theorem publish_event_failure_still_exits (sns : SnsEnv) (ev : FailureEvent)
    (h : sns_lookup_resolves sns = true) :
    (∀ m, publish_event sns ev ≠ NotifyOutcome.crash m) ∧
    (((∃ m, sns.listTopics = CallResult.clientError m) ∨
      (∃ m, sns.publishResult = CallResult.clientError m)) →
      publish_event sns ev = NotifyOutcome.exit1) := by
  constructor
  · intro m hcontra
    have hx := notify_exit1_of_resolves sns ev h
    rw [hcontra] at hx
    simp [notifyToOutcome] at hx
  · rintro (⟨m, hm⟩ | ⟨m, hm⟩)
    · simp [publish_event, hm]
    · rcases hl : sns.listTopics with arns | m2
      · have h2 : (arns.any fun a => strContainsSub a TOPIC_STRING) = true := by
          simpa [sns_lookup_resolves, hl] using h
        obtain ⟨a, ha⟩ := lastMatch_isSome_of_any arns h2
        simp [publish_event, hl, ha, hm]
      · simp [publish_event, hl]

/-- Claim C3 witness: a topic lookup failing with a client error still
ends in `sys.exit(1)`. -/
theorem publish_event_failure_still_exits_witness :
    publish_event snsLookupErr evSample = NotifyOutcome.exit1 :=
  (publish_event_failure_still_exits snsLookupErr evSample rfl).2
    (Or.inl ⟨"AccessDenied", rfl⟩)
